import Mathlib

/-!
Shallow embedding of the backup/restore subsystem found in
`src/endpoints/backup.js` (an Express router offering create / list /
download / delete / restore / cleanup operations over a `_site_backups`
directory inside the application data root).

JavaScript strings are modelled as Lean `String`; the `yaml` parser and the
archiver/unzipper codecs are black boxes, so YAML parseability is an oracle
parameter `parseOk : String → Bool` meaning "`yaml.parse` succeeds and yields
a truthy value of type object".  Filesystem failures (archiver errors,
`fs.rmSync` errors, `unzipper.Open` errors) are oracle booleans, matching the
places the source can throw or logs-and-skips.
-/

namespace SiteBackup

/-- Substring test on character lists: does `pat` occur inside `s`?
Models JavaScript `String.prototype.includes`. -/
def hasSub (pat : List Char) : List Char → Bool
  | [] => pat.isEmpty
  | c :: rest => pat.isPrefixOf (c :: rest) || hasSub pat rest

/-- JS `s.includes(pat)`. -/
def strHas (s pat : String) : Bool := hasSub pat.data s.data

/-- JS `s.startsWith(t)`. -/
def strStartsWith (s t : String) : Bool := t.data.isPrefixOf s.data

/-- JS `s.endsWith(t)`. -/
def strEndsWith (s t : String) : Bool := t.data.isSuffixOf s.data

/-- `const BACKUPS_DIR = '_site_backups'` (backup.js line 17). -/
def BACKUPS_DIR : String := "_site_backups"

/-- The filename traversal check used by download/delete/restore
(backup.js lines 171, 199, 238):
`filename.includes('..') || filename.includes('/') || filename.includes('\\')`. -/
def isUnsafeFilename (f : String) : Bool :=
  strHas f ".." || strHas f "/" || strHas f "\\"

/-- The clear-mode whitelist (backup.js lines 293-303). -/
def WHITELIST : List String :=
  [BACKUPS_DIR, ".git", "node_modules", "package.json", "package-lock.json",
   "config.yaml", "config", "public", "src"]

/-- The JSON body every endpoint answers with; fields not set by a given
response are `none`.  `status` is the HTTP status code. -/
structure JsonResponse where
  status : Nat := 200
  success : Bool := false
  error : Option String := none
  message : Option String := none
  preRestoreBackup : Option String := none
  filename : Option String := none
  size : Option Nat := none
  deletedCount : Option Nat := none
  releasedBytes : Option Nat := none
deriving DecidableEq

/-- `res.status(400).json(\x7b error \x7d)`. -/
def respInvalid (msg : String) : JsonResponse :=
  { status := 400, error := some msg }

/-- `res.status(404).json(\x7b error \x7d)`. -/
def respNotFound (msg : String) : JsonResponse :=
  { status := 404, error := some msg }

/-- `res.status(500).json(\x7b error \x7d)` from a catch block. -/
def respCaught (msg : String) : JsonResponse :=
  { status := 500, error := some msg }

/-! ## Cleanup endpoint (backup.js lines 433-472) -/

/-- One file of the backup store directory as `fs.readdirSync` + `statSync`
see it: a name, a modification time in milliseconds, a byte size. -/
structure StoredFile where
  name : String
  mtimeMs : Int
  size : Nat
deriving DecidableEq

/-- Result of `parseInt(req.body.days)`: either `NaN` (field absent or not
parseable as a number) or an integer. -/
inductive DaysField where
  | nan
  | num (n : Int)
deriving DecidableEq

/-- `const days = parseInt(req.body.days) || 30` (backup.js line 435).
In JavaScript both `NaN` and `0` are falsy, so both fall back to 30. -/
def daysOrDefault : DaysField → Int
  | .nan => 30
  | .num n => if n = 0 then 30 else n

/-- The deletion test of the cleanup loop (backup.js lines 447-453):
only `.zip` files, and only when `now - stat.mtimeMs > MAX_AGE`. -/
def cleanupDeletes (now maxAge : Int) (f : StoredFile) : Bool :=
  strEndsWith f.name ".zip" && decide (now - f.mtimeMs > maxAge)

/-- Outcome of one cleanup request: the response and the files remaining in
the backup store. -/
structure CleanupOut where
  response : JsonResponse
  remaining : List StoredFile
deriving DecidableEq

/-- POST /cleanup (backup.js lines 433-472): compute `MAX_AGE` from `days`,
delete every old `.zip` file, count deletions and released bytes. -/
def cleanupRun (now : Int) (days : DaysField) (files : List StoredFile) :
    CleanupOut :=
  let maxAge := daysOrDefault days * 24 * 60 * 60 * 1000
  let deleted := files.filter (cleanupDeletes now maxAge)
  { response :=
      { status := 200, success := true,
        deletedCount := some deleted.length,
        releasedBytes := some (deleted.map StoredFile.size).sum,
        message := some "cleanup done" },
    remaining := files.filter (fun f => !cleanupDeletes now maxAge f) }

/-! ## Filesystem state shared by create / list / delete / download / restore -/

/-- One entry of the archive chosen for restore, as `unzipper` exposes it:
a path, a type flag (`file.type === 'Directory'`), and its buffered content. -/
structure ArchiveEntry where
  path : String
  isDirectory : Bool
  content : String
deriving DecidableEq

/-- The slice of the filesystem the backup module touches.
`backups` holds the names in the backup store directory; `dataEntries` the
immediate children of `DATA_ROOT`; `dataFiles` the files written under
`DATA_ROOT` by path; the four `Option String` fields are the contents (or
absence) of `cwd/config.yaml`, `DATA_ROOT/config.yaml`,
`cwd/config/config.yaml` and `cwd/default/config.yaml`. -/
structure FsState where
  backups : List String
  dataEntries : List String
  dataFiles : List (String × String)
  cwdConfig : Option String
  dataConfig : Option String
  configDirConfig : Option String
  defaultConfig : Option String
deriving DecidableEq

/-- `fs.writeFileSync` semantics over an association list: overwrite the
entry if present, append otherwise. -/
def writeAssoc (l : List (String × String)) (k v : String) :
    List (String × String) :=
  if l.any (fun p => p.1 = k) then
    l.map (fun p => if p.1 = k then (k, v) else p)
  else l ++ [(k, v)]

/-- JS `content.trim().length > 0`: the string holds at least one
non-whitespace character. -/
def hasNonWhitespace (s : String) : Bool :=
  s.data.any (fun c =>
    !(c = ' ' || c = '\t' || c = '\n' || c = '\r' || c = '\x0b' || c = '\x0c'))

/-- Validity test applied to a buffered configuration payload
(backup.js lines 353-362): non-empty after trimming and
`yaml.parse` yields a truthy object (the oracle `parseOk`). -/
def isValidConfig (parseOk : String → Bool) (content : String) : Bool :=
  hasNonWhitespace content && parseOk content

/-- Semantic validity of an optional configuration file: the file exists,
is non-empty after trimming, and parses to a truthy object.  This is the
property the spec means by "holds a syntactically valid document", i.e. the
content test of the extraction path (backup.js lines 353-362) applied to
the file at a location.  NOTE: it is NOT the runtime behaviour of the
post-restore guard closure of backup.js lines 394-405 — see
`guardConfigValid` for that. -/
def isConfigValid (parseOk : String → Bool) : Option String → Bool
  | none => false
  | some content => isValidConfig parseOk content

/-- The post-restore guard closure `isConfigValid` (backup.js lines
394-405) as it actually behaves: a missing file or empty/whitespace content
returns false directly, and on any other content execution reaches
`const yaml = require('yaml')` (line 399), which throws a ReferenceError in
this ES module (`require` is undefined; the extraction path had the same
line and removed it, see the comment at line 356); the bare `catch` turns
the throw into false.  Hence the guard returns false on every input. -/
def guardConfigValid (_c : Option String) : Bool := false

/-! ## Restore endpoint (backup.js lines 225-427) -/

/-- The request body of POST /restore.  `confirmRestore` is compared with
`!==` against the sentinel, so any non-sentinel value (including absence)
fails; `clearData` is compared with `=== true`. -/
structure RestoreBody where
  filename : Option String
  confirmRestore : Option String
  clearData : Bool
deriving DecidableEq

/-- Failure oracles for one restore invocation: the pre-restore archiver
erroring, `fs.rmSync` failing on a given entry (logged and skipped), and
`unzipper.Open.file` throwing. -/
structure RestoreOracles where
  snapshotFails : Bool
  rmFails : String → Bool
  openFails : Bool
  parseOk : String → Bool

/-- Observable filesystem actions of a restore, in chronological order. -/
inductive REvent where
  | snapshotClosed
  | removeEntry (name : String)
  | writeFile (path : String)
  | writeCwdConfig
  | writeDataConfig
  | writeConfigDirConfig
  | copyDefault
deriving DecidableEq

/-- Outcome of one restore invocation: response, final filesystem slice,
and the chronological event trace. -/
structure RestoreResult where
  response : JsonResponse
  state : FsState
  events : List REvent
deriving DecidableEq

/-- The clear-data step (backup.js lines 289-317): with `clearData === true`,
remove every immediate child of `DATA_ROOT` not in `WHITELIST`; an entry
whose `fs.rmSync` throws is logged and survives. -/
def clearStage (rmFails : String → Bool) (clearData : Bool) (st : FsState) :
    FsState × List REvent :=
  if clearData then
    ({ st with dataEntries :=
        st.dataEntries.filter (fun e => WHITELIST.contains e || rmFails e) },
     (st.dataEntries.filter
        (fun e => !(WHITELIST.contains e || rmFails e))).map REvent.removeEntry)
  else (st, [])

/-- Extraction of a single archive entry (backup.js lines 324-388): skip
entries under the backup store and directory entries; a `config.yaml` entry
is validated and, when valid, written to `cwd/config.yaml` and mirrored to
`DATA_ROOT/config.yaml` and `cwd/config/config.yaml`; every other file is
written under `DATA_ROOT` at its relative path. -/
def extractEntry (parseOk : String → Bool) (st : FsState) (e : ArchiveEntry) :
    FsState × List REvent :=
  if strStartsWith e.path BACKUPS_DIR then (st, [])
  else if e.isDirectory then (st, [])
  else if e.path = "config.yaml" then
    if isValidConfig parseOk e.content then
      ({ st with cwdConfig := some e.content,
                 dataConfig := some e.content,
                 configDirConfig := some e.content },
       [REvent.writeCwdConfig, REvent.writeDataConfig,
        REvent.writeConfigDirConfig])
    else (st, [])
  else
    ({ st with dataFiles := writeAssoc st.dataFiles e.path e.content },
     [REvent.writeFile e.path])

/-- The extraction loop over `directory.files` in order. -/
def extractAll (parseOk : String → Bool) (entries : List ArchiveEntry)
    (st : FsState) : FsState × List REvent :=
  match entries with
  | [] => (st, [])
  | e :: rest =>
    let r1 := extractEntry parseOk st e
    let r2 := extractAll parseOk rest r1.1
    (r2.1, r1.2 ++ r2.2)

/-- The post-restore configuration guard (backup.js lines 390-413): if the
guard closure judges `cwd/config.yaml` invalid and `cwd/default/config.yaml`
exists, copy the default over it; if the default does not exist, do
nothing.  Because `guardConfigValid` is false on every input (the
`require('yaml')` throw, see its docstring), the copy branch runs after
EVERY restore in which the default file exists — even over a valid
just-restored configuration. -/
def ensureConfig (st : FsState) : FsState × List REvent :=
  if guardConfigValid st.cwdConfig then (st, [])
  else
    match st.defaultConfig with
    | some d => ({ st with cwdConfig := some d }, [REvent.copyDefault])
    | none => (st, [])

/-- The pre-restore snapshot filename (backup.js line 253). -/
def preRestoreName (ts : String) : String := "pre-restore-" ++ ts ++ ".zip"

/-- The restore pipeline after the pre-restore snapshot succeeded
(backup.js lines 286-421): optional clear, open the chosen archive
(`openFails` models `unzipper.Open.file` throwing into the catch block),
extract every entry, run the configuration guard, and answer
`\x7b success: true, message, preRestoreBackup \x7d`. -/
def restoreAfterSnapshot (st1 : FsState) (preName : String) (clearData : Bool)
    (entries : List ArchiveEntry) (orc : RestoreOracles) : RestoreResult :=
  let cl := clearStage orc.rmFails clearData st1
  if orc.openFails then
    { response := respCaught "restore failed",
      state := cl.1,
      events := REvent.snapshotClosed :: cl.2 }
  else
    let ex := extractAll orc.parseOk entries cl.1
    let en := ensureConfig ex.1
    { response :=
        { status := 200, success := true,
          message := some "restore complete",
          preRestoreBackup := some preName },
      state := en.1,
      events := REvent.snapshotClosed :: (cl.2 ++ ex.2 ++ en.2) }

/-- POST /restore (backup.js lines 225-427).  Checks in source order:
`!filename` (absent or empty string is falsy), `confirmRestore !==
'CONFIRM_RESTORE'`, the traversal check, existence of the chosen archive;
then writes the pre-restore snapshot (`createWriteStream` creates the file,
so its name joins the store even when the archiver then errors), awaits its
close, and continues with `restoreAfterSnapshot`.  `archOf` gives the entry
list of a stored archive. -/
def restore (st : FsState) (body : RestoreBody) (ts : String)
    (archOf : String → List ArchiveEntry) (orc : RestoreOracles) :
    RestoreResult :=
  match body.filename with
  | none => { response := respInvalid "filename required", state := st, events := [] }
  | some fname =>
    if fname = "" then
      { response := respInvalid "filename required", state := st, events := [] }
    else if body.confirmRestore = some "CONFIRM_RESTORE" then
      if isUnsafeFilename fname then
        { response := respInvalid "invalid filename", state := st, events := [] }
      else if fname ∈ st.backups then
        let preName := preRestoreName ts
        let st1 := { st with backups := st.backups ++ [preName] }
        if orc.snapshotFails then
          { response := respCaught "restore failed", state := st1, events := [] }
        else restoreAfterSnapshot st1 preName body.clearData (archOf fname) orc
      else { response := respNotFound "backup not found", state := st, events := [] }
    else { response := respInvalid "confirm required", state := st, events := [] }

/-! ## Create / list / delete / download endpoints -/

/-- POST /create (backup.js lines 48-130): `createWriteStream` creates the
output file under the store, the archiver streams into it; on an archiver
error the catch block answers 500 and the partial file is left in place
(no unlink appears in the handler). -/
def createBackup (st : FsState) (ts : String) (producedSize : Nat)
    (archiveFails : Bool) : JsonResponse × FsState :=
  let filename := "site-backup-" ++ ts ++ ".zip"
  let st1 := { st with backups := st.backups ++ [filename] }
  if archiveFails then (respCaught "create failed", st1)
  else
    ({ status := 200, success := true, filename := some filename,
       size := some producedSize, message := some "backup created" }, st1)

/-- GET /list (backup.js lines 136-160): the filenames shown are exactly the
`.zip` entries of the store directory. -/
def listZips (names : List String) : List String :=
  names.filter (fun f => strEndsWith f ".zip")

/-- DELETE /:filename (backup.js lines 194-219): traversal check first, then
existence, then `fs.unlinkSync`. -/
def deleteBackup (st : FsState) (filename : String) : JsonResponse × FsState :=
  if isUnsafeFilename filename then (respInvalid "invalid filename", st)
  else if filename ∈ st.backups then
    ({ status := 200, success := true, message := some "backup deleted" },
     { st with backups := st.backups.filter (fun f => f ≠ filename) })
  else (respNotFound "backup not found", st)

/-- GET /download/:filename (backup.js lines 166-188): traversal check, then
existence, then `res.download` (no mutation on any path). -/
def downloadBackup (st : FsState) (filename : String) :
    JsonResponse × FsState :=
  if isUnsafeFilename filename then (respInvalid "invalid filename", st)
  else if filename ∈ st.backups then
    ({ status := 200, success := true, message := some "download stream" }, st)
  else (respNotFound "backup not found", st)

/-- All three configuration persistence locations (`cwd/config.yaml`,
`DATA_ROOT/config.yaml`, `cwd/config/config.yaml`) hold the same valid
content. -/
def configMirrored (parseOk : String → Bool) (st : FsState) : Prop :=
  ∃ c, st.cwdConfig = some c ∧ st.dataConfig = some c ∧
    st.configDirConfig = some c ∧ isValidConfig parseOk c = true

/-! ## Claims about the cleanup endpoint -/

/-- C9: cleanup is idempotent — for any fixed clock time, running
`cleanup(30)` on the files a first `cleanup(30)` left behind deletes nothing:
the second response reports `deletedCount = 0` and `releasedBytes = 0`. -/
theorem cleanup_idempotent (now : Int) (files : List StoredFile) :
    (cleanupRun now (.num 30)
      (cleanupRun now (.num 30) files).remaining).response.deletedCount
        = some 0 ∧
    (cleanupRun now (.num 30)
      (cleanupRun now (.num 30) files).remaining).response.releasedBytes
        = some 0 := by
  have h : ∀ maxAge : Int,
      (files.filter (fun f => !cleanupDeletes now maxAge f)).filter
        (cleanupDeletes now maxAge) = [] := by
    intro maxAge
    rw [List.filter_filter]
    simp
  constructor <;> simp [cleanupRun, h]

/-- C5 counterexample: the claim says `cleanup(days=0)` deletes every
existing archive, but `parseInt(days) || 30` treats `0` as falsy, so the
30-day default applies: a one-day-old archive survives and nothing is
deleted. -/
theorem cleanup_days_zero_counterexample :
    (cleanupRun 86400000 (.num 0)
      [⟨"a.zip", 0, 7⟩]).response.deletedCount = some 0 ∧
    (cleanupRun 86400000 (.num 0)
      [⟨"a.zip", 0, 7⟩]).remaining = [⟨"a.zip", 0, 7⟩] := by
  decide

/-- C5 (amended): cleanup deletes exactly the `.zip` archives whose
modification time is older than `now - d*86400000` ms, where `d` defaults
to 30 when `days` is absent or non-numeric AND ALSO when it parses to `0`
(JavaScript `parseInt(x) || 30` treats `0` as falsy); `cleanup(36500)`
deletes nothing modified within the last 36500 days. -/
theorem cleanup_cutoff (now : Int) (days : DaysField)
    (files : List StoredFile) :
    daysOrDefault .nan = 30 ∧ daysOrDefault (.num 0) = 30 ∧
    (∀ f : StoredFile, f ∈ (cleanupRun now days files).remaining ↔
      f ∈ files ∧ ¬(strEndsWith f.name ".zip" = true ∧
        now - f.mtimeMs > daysOrDefault days * 86400000)) ∧
    ((∀ f ∈ files, now - f.mtimeMs ≤ 36500 * 86400000) →
      (cleanupRun now (.num 36500) files).response.deletedCount = some 0) := by
  refine ⟨rfl, rfl, ?_, ?_⟩
  · intro f
    constructor
    · intro hmem
      have hm := List.mem_filter.mp hmem
      refine ⟨hm.1, ?_⟩
      rintro ⟨hz, hgt⟩
      have h2 := hm.2
      simp [cleanupDeletes, hz] at h2
      omega
    · rintro ⟨hmem, hn⟩
      refine List.mem_filter.mpr ⟨hmem, ?_⟩
      simp [cleanupDeletes]
      cases hz : strEndsWith f.name ".zip"
      · exact Or.inl rfl
      · right
        have h3 : ¬(now - f.mtimeMs > daysOrDefault days * 86400000) :=
          fun hgt => hn ⟨hz, hgt⟩
        omega
  · intro hall
    have h : files.filter
        (cleanupDeletes now (daysOrDefault (.num 36500) * 24 * 60 * 60 * 1000))
          = [] := by
      rw [List.filter_eq_nil_iff]
      intro f hf
      have := hall f hf
      simp [cleanupDeletes, daysOrDefault]
      intro _
      omega
    simp [cleanupRun, h]

/-- C5 witness: at concrete inputs, a 1-day-old archive survives
`cleanup(days=0)`, and `cleanup(36500)` deletes nothing. -/
theorem cleanup_cutoff_witness :
    ((⟨"a.zip", 0, 7⟩ : StoredFile) ∈
      (cleanupRun 86400000 (.num 0) [⟨"a.zip", 0, 7⟩]).remaining) ∧
    (cleanupRun 86400000 (.num 36500)
      [⟨"a.zip", 0, 7⟩]).response.deletedCount = some 0 := by
  refine ⟨?_, ?_⟩
  · exact ((cleanup_cutoff 86400000 (.num 0)
      [⟨"a.zip", 0, 7⟩]).2.2.1 ⟨"a.zip", 0, 7⟩).2 (by decide)
  · exact (cleanup_cutoff 86400000 (.num 36500)
      [⟨"a.zip", 0, 7⟩]).2.2.2 (by decide)

/-- C10: a negative `days` value such as `-1` is truthy, so it is neither
rejected nor replaced by the 30-day default; the cutoff becomes negative and
every `.zip` file whose modification time is not in the future is deleted. -/
theorem cleanup_negative_days (now : Int) (files : List StoredFile)
    (h : ∀ f ∈ files, f.mtimeMs ≤ now) :
    daysOrDefault (.num (-1)) = -1 ∧
    ∀ f ∈ files, strEndsWith f.name ".zip" = true →
      f ∉ (cleanupRun now (.num (-1)) files).remaining := by
  refine ⟨rfl, ?_⟩
  intro f hf hzip hmem
  have hle := h f hf
  have h2 := (List.mem_filter.mp hmem).2
  simp [cleanupDeletes, hzip, daysOrDefault] at h2
  omega

/-- C10 witness: a concrete `.zip` file one day younger than the clock is
deleted by `cleanup(days=-1)`. -/
theorem cleanup_negative_days_witness :
    daysOrDefault (.num (-1)) = -1 ∧
    (⟨"a.zip", 0, 7⟩ : StoredFile) ∉
      (cleanupRun 86400000 (.num (-1)) [⟨"a.zip", 0, 7⟩]).remaining := by
  refine ⟨(cleanup_negative_days 86400000 [⟨"a.zip", 0, 7⟩] (by decide)).1, ?_⟩
  exact (cleanup_negative_days 86400000 [⟨"a.zip", 0, 7⟩] (by decide)).2
    ⟨"a.zip", 0, 7⟩ (by decide) (by decide)

/-! ## Helper lemmas about the restore pipeline stages -/

theorem extractEntry_preserved (parseOk : String → Bool) (st : FsState)
    (e : ArchiveEntry) :
    (extractEntry parseOk st e).1.dataEntries = st.dataEntries ∧
    (extractEntry parseOk st e).1.defaultConfig = st.defaultConfig ∧
    (extractEntry parseOk st e).1.backups = st.backups := by
  unfold extractEntry
  repeat' split
  all_goals exact ⟨rfl, rfl, rfl⟩

theorem extractAll_preserved (parseOk : String → Bool)
    (entries : List ArchiveEntry) : ∀ st : FsState,
    (extractAll parseOk entries st).1.dataEntries = st.dataEntries ∧
    (extractAll parseOk entries st).1.defaultConfig = st.defaultConfig ∧
    (extractAll parseOk entries st).1.backups = st.backups := by
  induction entries with
  | nil => intro st; exact ⟨rfl, rfl, rfl⟩
  | cons e rest ih =>
    intro st
    have h1 := extractEntry_preserved parseOk st e
    have h2 := ih (extractEntry parseOk st e).1
    exact ⟨h2.1.trans h1.1, h2.2.1.trans h1.2.1, h2.2.2.trans h1.2.2⟩

theorem ensureConfig_preserved (st : FsState) :
    (ensureConfig st).1.dataEntries = st.dataEntries ∧
    (ensureConfig st).1.defaultConfig = st.defaultConfig ∧
    (ensureConfig st).1.backups = st.backups ∧
    (ensureConfig st).1.dataFiles = st.dataFiles := by
  unfold ensureConfig
  repeat' split
  all_goals exact ⟨rfl, rfl, rfl, rfl⟩

theorem clearStage_preserved (rmFails : String → Bool) (clearData : Bool)
    (st : FsState) :
    (clearStage rmFails clearData st).1.defaultConfig = st.defaultConfig ∧
    (clearStage rmFails clearData st).1.backups = st.backups ∧
    (clearStage rmFails clearData st).1.cwdConfig = st.cwdConfig ∧
    (clearStage rmFails clearData st).1.dataConfig = st.dataConfig ∧
    (clearStage rmFails clearData st).1.configDirConfig = st.configDirConfig ∧
    (clearStage rmFails clearData st).1.dataFiles = st.dataFiles := by
  unfold clearStage
  split
  · exact ⟨rfl, rfl, rfl, rfl, rfl, rfl⟩
  · exact ⟨rfl, rfl, rfl, rfl, rfl, rfl⟩

theorem clearStage_keeps_whitelisted (rmFails : String → Bool)
    (clearData : Bool) (st : FsState) (name : String)
    (hw : WHITELIST.contains name = true) (hm : name ∈ st.dataEntries) :
    name ∈ (clearStage rmFails clearData st).1.dataEntries := by
  unfold clearStage
  split
  · refine List.mem_filter.mpr ⟨hm, ?_⟩
    have hx : name ∈ WHITELIST := by simpa using hw
    simp [hx]
  · exact hm

theorem clearStage_events (rmFails : String → Bool) (clearData : Bool)
    (st : FsState) :
    ∀ ev ∈ (clearStage rmFails clearData st).2, ∃ n, ev = REvent.removeEntry n := by
  unfold clearStage
  split
  · intro ev hev
    obtain ⟨n, _, hn⟩ := List.mem_map.mp hev
    exact ⟨n, hn.symm⟩
  · intro ev hev
    cases hev

theorem ensureConfig_events (st : FsState) :
    ∀ ev ∈ (ensureConfig st).2, ev = REvent.copyDefault := by
  unfold ensureConfig
  repeat' split
  all_goals intro ev hev
  · cases hev
  · exact List.mem_singleton.mp hev
  · cases hev

theorem ensureConfig_none (st : FsState) (h : st.defaultConfig = none) :
    ensureConfig st = (st, []) := by
  unfold ensureConfig
  rw [if_neg (by simp [guardConfigValid]), h]

theorem ensureConfig_some (st : FsState) (d : String)
    (h : st.defaultConfig = some d) :
    ensureConfig st = ({ st with cwdConfig := some d },
      [REvent.copyDefault]) := by
  unfold ensureConfig
  rw [if_neg (by simp [guardConfigValid]), h]

theorem ensureConfig_valid (parseOk : String → Bool) (st : FsState)
    (d : String) (hd : st.defaultConfig = some d)
    (hv : isValidConfig parseOk d = true) :
    isConfigValid parseOk (ensureConfig st).1.cwdConfig = true := by
  rw [ensureConfig_some st d hd]
  exact hv

theorem extractEntry_mirror (parseOk : String → Bool) (st : FsState)
    (e : ArchiveEntry) :
    (configMirrored parseOk st →
      configMirrored parseOk (extractEntry parseOk st e).1) ∧
    (REvent.writeCwdConfig ∈ (extractEntry parseOk st e).2 →
      configMirrored parseOk (extractEntry parseOk st e).1) := by
  unfold extractEntry
  repeat' split
  · exact ⟨id, fun h => by cases h⟩
  · exact ⟨id, fun h => by cases h⟩
  · next hv =>
    exact ⟨fun _ => ⟨e.content, rfl, rfl, rfl, hv⟩,
           fun _ => ⟨e.content, rfl, rfl, rfl, hv⟩⟩
  · exact ⟨id, fun h => by cases h⟩
  · refine ⟨fun hP => ?_, fun h => by simp at h⟩
    obtain ⟨c, h1, h2, h3, hv⟩ := hP
    exact ⟨c, h1, h2, h3, hv⟩

theorem extractAll_mirror (parseOk : String → Bool)
    (entries : List ArchiveEntry) : ∀ st : FsState,
    (configMirrored parseOk st →
      configMirrored parseOk (extractAll parseOk entries st).1) ∧
    (REvent.writeCwdConfig ∈ (extractAll parseOk entries st).2 →
      configMirrored parseOk (extractAll parseOk entries st).1) := by
  induction entries with
  | nil =>
    intro st
    exact ⟨id, by intro h; cases h⟩
  | cons e rest ih =>
    intro st
    constructor
    · intro hP
      exact (ih _).1 ((extractEntry_mirror parseOk st e).1 hP)
    · intro hmem
      rcases List.mem_append.mp hmem with h | h
      · exact (ih _).1 ((extractEntry_mirror parseOk st e).2 h)
      · exact (ih _).2 h

theorem restoreAfterSnapshot_events_head (st1 : FsState) (preName : String)
    (clearData : Bool) (entries : List ArchiveEntry) (orc : RestoreOracles) :
    (restoreAfterSnapshot st1 preName clearData entries orc).events.head? =
      some REvent.snapshotClosed := by
  unfold restoreAfterSnapshot
  split
  · rfl
  · rfl

theorem restoreAfterSnapshot_success_shape (st1 : FsState) (preName : String)
    (clearData : Bool) (entries : List ArchiveEntry) (orc : RestoreOracles)
    (hs : (restoreAfterSnapshot st1 preName clearData entries orc).response.success
      = true) :
    orc.openFails = false ∧
    restoreAfterSnapshot st1 preName clearData entries orc =
      { response :=
          { status := 200, success := true,
            message := some "restore complete",
            preRestoreBackup := some preName },
        state := (ensureConfig
          (extractAll orc.parseOk entries
            (clearStage orc.rmFails clearData st1).1).1).1,
        events := REvent.snapshotClosed ::
          ((clearStage orc.rmFails clearData st1).2 ++
           (extractAll orc.parseOk entries
             (clearStage orc.rmFails clearData st1).1).2 ++
           (ensureConfig (extractAll orc.parseOk entries
             (clearStage orc.rmFails clearData st1).1).1).2) } := by
  cases ho : orc.openFails with
  | true =>
    exfalso
    simp only [restoreAfterSnapshot, ho, if_true] at hs
    exact absurd hs (by simp [respCaught])
  | false =>
    refine ⟨rfl, ?_⟩
    simp only [restoreAfterSnapshot, ho]
    rfl

theorem restore_success_shape (st : FsState) (body : RestoreBody) (ts : String)
    (archOf : String → List ArchiveEntry) (orc : RestoreOracles)
    (hs : (restore st body ts archOf orc).response.success = true) :
    ∃ fname, body.filename = some fname ∧
      orc.snapshotFails = false ∧
      restore st body ts archOf orc =
        restoreAfterSnapshot
          { st with backups := st.backups ++ [preRestoreName ts] }
          (preRestoreName ts) body.clearData (archOf fname) orc := by
  cases hb : body.filename with
  | none =>
    simp only [restore, hb] at hs
    exact absurd hs (by simp [respInvalid])
  | some fname =>
    by_cases h1 : fname = ""
    · simp only [restore, hb, if_pos h1] at hs
      exact absurd hs (by simp [respInvalid])
    · by_cases h2 : body.confirmRestore = some "CONFIRM_RESTORE"
      · by_cases h3 : isUnsafeFilename fname = true
        · simp only [restore, hb, if_neg h1, if_pos h2, if_pos h3] at hs
          exact absurd hs (by simp [respInvalid])
        · by_cases h4 : fname ∈ st.backups
          · cases h5 : orc.snapshotFails with
            | true =>
              simp only [restore, hb, if_neg h1, if_pos h2, if_neg h3,
                if_pos h4, h5, if_true] at hs
              exact absurd hs (by simp [respCaught])
            | false =>
              refine ⟨fname, rfl, h5.symm ▸ rfl, ?_⟩
              simp only [restore, hb, if_neg h1, if_pos h2, if_neg h3,
                if_pos h4, h5]
              simp
          · simp only [restore, hb, if_neg h1, if_pos h2, if_neg h3,
              if_neg h4] at hs
            exact absurd hs (by simp [respNotFound])
      · simp only [restore, hb, if_neg h1, if_neg h2] at hs
        exact absurd hs (by simp [respInvalid])

theorem restoreAfterSnapshot_whitelist (st1 : FsState) (preName : String)
    (clearData : Bool) (entries : List ArchiveEntry) (orc : RestoreOracles)
    (name : String) (hw : WHITELIST.contains name = true)
    (hm : name ∈ st1.dataEntries) :
    name ∈ (restoreAfterSnapshot st1 preName clearData entries
      orc).state.dataEntries := by
  have hcl := clearStage_keeps_whitelisted orc.rmFails clearData st1 name hw hm
  cases ho : orc.openFails with
  | true =>
    have hst : (restoreAfterSnapshot st1 preName clearData entries orc).state =
        (clearStage orc.rmFails clearData st1).1 := by
      simp [restoreAfterSnapshot, ho]
    rw [hst]
    exact hcl
  | false =>
    have hst : (restoreAfterSnapshot st1 preName clearData entries orc).state =
        (ensureConfig (extractAll orc.parseOk entries
          (clearStage orc.rmFails clearData st1).1).1).1 := by
      simp [restoreAfterSnapshot, ho]
    rw [hst, (ensureConfig_preserved _).1, (extractAll_preserved _ _ _).1]
    exact hcl

theorem strEndsWith_append (s t : String) : strEndsWith (s ++ t) t = true := by
  unfold strEndsWith
  rw [String.data_append]
  simp only [List.isSuffixOf_iff_suffix]
  exact List.suffix_append _ _

/-! ## Claims about restore, create, delete, download -/

/-- C3: for every entry of the whitelist (Reserved-Path Set), a restore —
clear-mode included — never removes that entry from the Data Root, whatever
the chosen archive contains. -/
theorem restore_preserves_whitelisted (st : FsState) (body : RestoreBody)
    (ts : String) (archOf : String → List ArchiveEntry) (orc : RestoreOracles)
    (name : String) (hw : WHITELIST.contains name = true)
    (hm : name ∈ st.dataEntries) :
    name ∈ (restore st body ts archOf orc).state.dataEntries := by
  cases hb : body.filename with
  | none => simp only [restore, hb]; exact hm
  | some fname =>
    by_cases h1 : fname = ""
    · simp only [restore, hb, if_pos h1]; exact hm
    · by_cases h2 : body.confirmRestore = some "CONFIRM_RESTORE"
      · by_cases h3 : isUnsafeFilename fname = true
        · simp only [restore, hb, if_neg h1, if_pos h2, if_pos h3]; exact hm
        · by_cases h4 : fname ∈ st.backups
          · cases h5 : orc.snapshotFails with
            | true =>
              simp [restore, hb, if_neg h1, h2, h3, h4, h5]
              exact hm
            | false =>
              have hr : restore st body ts archOf orc =
                  restoreAfterSnapshot
                    { st with backups := st.backups ++ [preRestoreName ts] }
                    (preRestoreName ts) body.clearData (archOf fname) orc := by
                simp only [restore, hb, if_neg h1, if_pos h2, if_neg h3,
                  if_pos h4, h5]
                simp
              rw [hr]
              exact restoreAfterSnapshot_whitelist _ _ _ _ _ name hw hm
          · simp [restore, hb, if_neg h1, h2, h3, h4]
            exact hm
      · simp only [restore, hb, if_neg h1, if_neg h2]; exact hm

/-- C3 witness: a concrete clear-mode restore keeps the whitelisted entry
`public` while the non-whitelisted `junk` is removed. -/
theorem restore_preserves_whitelisted_witness :
    "public" ∈ (restore ⟨["b.zip"], ["public", "junk"], [], none, none, none,
        none⟩
      ⟨some "b.zip", some "CONFIRM_RESTORE", true⟩ "T" (fun _ => [])
      ⟨false, fun _ => false, false, fun _ => false⟩).state.dataEntries :=
  restore_preserves_whitelisted _ _ _ _ _ "public" (by decide) (by decide)

/-- C2: the pre-restore snapshot stream is closed before any deletion — if
any removal event occurs, the very first event of the invocation is the
snapshot close; and if the snapshot step fails, the restore reports failure
and no Data Root entry is deleted or overwritten (all tracked data locations
are unchanged and no destructive event was emitted). -/
theorem restore_snapshot_before_destruction (st : FsState) (body : RestoreBody)
    (ts : String) (archOf : String → List ArchiveEntry)
    (orc : RestoreOracles) :
    (orc.snapshotFails = true →
      (restore st body ts archOf orc).response.success = false ∧
      (restore st body ts archOf orc).state.dataEntries = st.dataEntries ∧
      (restore st body ts archOf orc).state.dataFiles = st.dataFiles ∧
      (restore st body ts archOf orc).state.cwdConfig = st.cwdConfig ∧
      (restore st body ts archOf orc).state.dataConfig = st.dataConfig ∧
      (restore st body ts archOf orc).state.configDirConfig
        = st.configDirConfig ∧
      (restore st body ts archOf orc).events = []) ∧
    (∀ n, REvent.removeEntry n ∈ (restore st body ts archOf orc).events →
      (restore st body ts archOf orc).events.head?
        = some REvent.snapshotClosed) := by
  cases hb : body.filename with
  | none =>
    constructor
    · intro _; simp [restore, hb, respInvalid]
    · intro n hn; simp [restore, hb] at hn
  | some fname =>
    by_cases h1 : fname = ""
    · constructor
      · intro _; simp [restore, hb, h1, respInvalid]
      · intro n hn; simp [restore, hb, h1] at hn
    · by_cases h2 : body.confirmRestore = some "CONFIRM_RESTORE"
      · by_cases h3 : isUnsafeFilename fname = true
        · constructor
          · intro _; simp [restore, hb, if_neg h1, h2, h3, respInvalid]
          · intro n hn; simp [restore, hb, if_neg h1, h2, h3] at hn
        · by_cases h4 : fname ∈ st.backups
          · cases h5 : orc.snapshotFails with
            | true =>
              constructor
              · intro _
                simp [restore, hb, if_neg h1, h2, h3, h4, h5, respCaught]
              · intro n hn
                simp [restore, hb, if_neg h1, h2, h3, h4, h5] at hn
            | false =>
              have hr : restore st body ts archOf orc =
                  restoreAfterSnapshot
                    { st with backups := st.backups ++ [preRestoreName ts] }
                    (preRestoreName ts) body.clearData (archOf fname) orc := by
                simp only [restore, hb, if_neg h1, if_pos h2, if_neg h3,
                  if_pos h4, h5]
                simp
              constructor
              · intro h
                exact absurd h (by simp [h5])
              · intro n _
                rw [hr]
                exact restoreAfterSnapshot_events_head _ _ _ _ _
          · constructor
            · intro _; simp [restore, hb, if_neg h1, h2, h3, h4, respNotFound]
            · intro n hn; simp [restore, hb, if_neg h1, h2, h3, h4] at hn
      · constructor
        · intro _; simp [restore, hb, if_neg h1, h2, respInvalid]
        · intro n hn; simp [restore, hb, if_neg h1, h2] at hn

/-- C2 witness: with a failing snapshot nothing happens (no events), and in
a clear-mode run that does delete `junk`, the first event is the snapshot
close. -/
theorem restore_snapshot_before_destruction_witness :
    (restore ⟨["b.zip"], ["junk"], [], none, none, none, none⟩
      ⟨some "b.zip", some "CONFIRM_RESTORE", true⟩ "T" (fun _ => [])
      ⟨true, fun _ => false, false, fun _ => false⟩).events = [] ∧
    (restore ⟨["b.zip"], ["junk"], [], none, none, none, none⟩
      ⟨some "b.zip", some "CONFIRM_RESTORE", true⟩ "T" (fun _ => [])
      ⟨false, fun _ => false, false, fun _ => false⟩).events.head?
        = some REvent.snapshotClosed :=
  ⟨((restore_snapshot_before_destruction _ _ _ _ _).1 rfl).2.2.2.2.2.2,
   (restore_snapshot_before_destruction _ _ _ _ _).2 "junk" (by decide)⟩

/-- C4: a filename containing a traversal token or separator makes delete,
download and restore answer 400 with no state change and no events; a
restore whose `confirmRestore` is not the sentinel answers 400 with no state
change, in particular no snapshot is added to the store. -/
theorem invalid_requests_rejected (st : FsState) (body : RestoreBody)
    (ts : String) (archOf : String → List ArchiveEntry) (orc : RestoreOracles)
    (f : String) :
    (isUnsafeFilename f = true →
      deleteBackup st f = (respInvalid "invalid filename", st) ∧
      downloadBackup st f = (respInvalid "invalid filename", st) ∧
      (body.filename = some f →
        (restore st body ts archOf orc).response.status = 400 ∧
        (restore st body ts archOf orc).state = st ∧
        (restore st body ts archOf orc).events = [])) ∧
    (body.confirmRestore ≠ some "CONFIRM_RESTORE" →
      (restore st body ts archOf orc).response.status = 400 ∧
      (restore st body ts archOf orc).state = st ∧
      (restore st body ts archOf orc).events = []) := by
  constructor
  · intro hf
    refine ⟨by simp [deleteBackup, hf], by simp [downloadBackup, hf], ?_⟩
    intro hb
    by_cases h1 : f = ""
    · simp [restore, hb, h1, respInvalid]
    · by_cases h2 : body.confirmRestore = some "CONFIRM_RESTORE"
      · simp [restore, hb, if_neg h1, h2, hf, respInvalid]
      · simp [restore, hb, if_neg h1, h2, respInvalid]
  · intro h2
    cases hb : body.filename with
    | none => simp [restore, hb, respInvalid]
    | some fname =>
      by_cases h1 : fname = ""
      · simp [restore, hb, h1, respInvalid]
      · simp [restore, hb, if_neg h1, h2, respInvalid]

/-- C4 witness: a traversal filename is rejected by delete without touching
the store, and a restore with a wrong confirmation token emits no event. -/
theorem invalid_requests_rejected_witness :
    deleteBackup ⟨["b.zip"], [], [], none, none, none, none⟩ "../x"
      = (respInvalid "invalid filename",
         ⟨["b.zip"], [], [], none, none, none, none⟩) ∧
    (restore ⟨["b.zip"], [], [], none, none, none, none⟩
      ⟨some "b.zip", some "NOPE", false⟩ "T" (fun _ => [])
      ⟨false, fun _ => false, false, fun _ => false⟩).events = [] :=
  ⟨((invalid_requests_rejected _
      ⟨some "../x", some "CONFIRM_RESTORE", false⟩ "T" (fun _ => [])
      ⟨false, fun _ => false, false, fun _ => false⟩ "../x").1 (by decide)).1,
   ((invalid_requests_rejected _
      ⟨some "b.zip", some "NOPE", false⟩ "T" (fun _ => [])
      ⟨false, fun _ => false, false, fun _ => false⟩ "b.zip").2
        (by decide)).2.2⟩

/-- C7 counterexample: a restore that reached the snapshot step (the trace
shows the snapshot close) and then failed (archive unreadable) answers 500
WITHOUT the pre-restore snapshot filename — the catch block only sends an
error message, refuting the claim that every attempt reaching step 3
reports it. -/
theorem restore_failure_omits_snapshot_name :
    (restore ⟨["b.zip"], [], [], none, none, none, none⟩
      ⟨some "b.zip", some "CONFIRM_RESTORE", false⟩ "T" (fun _ => [])
      ⟨false, fun _ => false, true, fun _ => false⟩).events
        = [REvent.snapshotClosed] ∧
    (restore ⟨["b.zip"], [], [], none, none, none, none⟩
      ⟨some "b.zip", some "CONFIRM_RESTORE", false⟩ "T" (fun _ => [])
      ⟨false, fun _ => false, true, fun _ => false⟩).response.status = 500 ∧
    (restore ⟨["b.zip"], [], [], none, none, none, none⟩
      ⟨some "b.zip", some "CONFIRM_RESTORE", false⟩ "T" (fun _ => [])
      ⟨false, fun _ => false, true, fun _ => false⟩).response.preRestoreBackup
        = none := by
  decide

/-- C7 (amended): only a SUCCESSFUL restore reports the pre-restore
snapshot filename in its response; failing attempts answer only an error
message. -/
theorem restore_success_reports_snapshot (st : FsState) (body : RestoreBody)
    (ts : String) (archOf : String → List ArchiveEntry) (orc : RestoreOracles)
    (hs : (restore st body ts archOf orc).response.success = true) :
    (restore st body ts archOf orc).response.preRestoreBackup =
      some (preRestoreName ts) := by
  obtain ⟨fname, hb, hsf, hr⟩ := restore_success_shape st body ts archOf orc hs
  rw [hr] at hs ⊢
  obtain ⟨ho, hr2⟩ := restoreAfterSnapshot_success_shape _ _ _ _ _ hs
  rw [hr2]

/-- C7 witness: a concrete successful restore reports the snapshot name. -/
theorem restore_success_reports_snapshot_witness :
    (restore ⟨["b.zip"], [], [], none, none, none, none⟩
      ⟨some "b.zip", some "CONFIRM_RESTORE", false⟩ "T" (fun _ => [])
      ⟨false, fun _ => false, false, fun _ => false⟩).response.preRestoreBackup
        = some (preRestoreName "T") :=
  restore_success_reports_snapshot _ _ _ _ _ (by decide)

/-- C1 counterexample: a restore of an archive with no configuration entry,
on a host with no current configuration and no bundled default, reports
success while the primary configuration location holds nothing — the
post-restore guarantee is NOT unconditional. -/
theorem restore_config_guarantee_counterexample :
    (restore ⟨["b.zip"], [], [], none, none, none, none⟩
      ⟨some "b.zip", some "CONFIRM_RESTORE", false⟩ "T" (fun _ => [])
      ⟨false, fun _ => false, false, fun _ => false⟩).response.success
        = true ∧
    (restore ⟨["b.zip"], [], [], none, none, none, none⟩
      ⟨some "b.zip", some "CONFIRM_RESTORE", false⟩ "T" (fun _ => [])
      ⟨false, fun _ => false, false, fun _ => false⟩).state.cwdConfig
        = none ∧
    isConfigValid (fun _ => false)
      (restore ⟨["b.zip"], [], [], none, none, none, none⟩
        ⟨some "b.zip", some "CONFIRM_RESTORE", false⟩ "T" (fun _ => [])
        ⟨false, fun _ => false, false, fun _ => false⟩).state.cwdConfig
          = false := by
  decide

/-- C1 (amended): after every restore that reports success, the primary
configuration location holds a valid document PROVIDED the bundled default
configuration file exists and holds a valid document; without that default
the guarantee can fail. -/
theorem restore_config_guarantee (st : FsState) (body : RestoreBody)
    (ts : String) (archOf : String → List ArchiveEntry) (orc : RestoreOracles)
    (d : String) (hd : st.defaultConfig = some d)
    (hv : isValidConfig orc.parseOk d = true)
    (hs : (restore st body ts archOf orc).response.success = true) :
    isConfigValid orc.parseOk
      (restore st body ts archOf orc).state.cwdConfig = true := by
  obtain ⟨fname, hb, hsf, hr⟩ := restore_success_shape st body ts archOf orc hs
  rw [hr] at hs ⊢
  obtain ⟨ho, hr2⟩ := restoreAfterSnapshot_success_shape _ _ _ _ _ hs
  rw [hr2]
  have hd2 : (extractAll orc.parseOk (archOf fname)
      (clearStage orc.rmFails body.clearData
        { st with backups := st.backups ++ [preRestoreName ts] }).1).1.defaultConfig
        = some d := by
    rw [(extractAll_preserved _ _ _).2.1, (clearStage_preserved _ _ _).1]
    exact hd
  exact ensureConfig_valid orc.parseOk _ d hd2 hv

/-- C1 witness: with a valid bundled default present, a successful restore
of a config-less archive ends with a valid primary configuration. -/
theorem restore_config_guarantee_witness :
    isConfigValid (fun _ => true)
      (restore ⟨["b.zip"], [], [], none, none, none, some "k: v"⟩
        ⟨some "b.zip", some "CONFIRM_RESTORE", false⟩ "T" (fun _ => [])
        ⟨false, fun _ => false, false, fun _ => true⟩).state.cwdConfig
          = true :=
  restore_config_guarantee ⟨["b.zip"], [], [], none, none, none, some "k: v"⟩
    ⟨some "b.zip", some "CONFIRM_RESTORE", false⟩ "T" (fun _ => [])
    ⟨false, fun _ => false, false, fun _ => true⟩ "k: v" rfl (by decide)
    (by decide)

/-- C6 counterexample: a successful restore writes a valid `config.yaml`
entry to all three locations, but the post-restore guard — whose
`require('yaml')` always throws, so it judges every configuration invalid —
then copies the bundled default over the primary location: the primary ends
holding the default's content while the two mirrors hold the archive
entry's content, refuting the claimed byte-identical three-location
state. -/
theorem restore_mirror_counterexample :
    (restore ⟨["b.zip"], [], [], none, none, none, some "default-cfg"⟩
      ⟨some "b.zip", some "CONFIRM_RESTORE", false⟩ "T"
      (fun _ => [⟨"config.yaml", false, "k: v"⟩])
      ⟨false, fun _ => false, false, fun _ => true⟩).response.success
        = true ∧
    REvent.writeCwdConfig ∈
      (restore ⟨["b.zip"], [], [], none, none, none, some "default-cfg"⟩
        ⟨some "b.zip", some "CONFIRM_RESTORE", false⟩ "T"
        (fun _ => [⟨"config.yaml", false, "k: v"⟩])
        ⟨false, fun _ => false, false, fun _ => true⟩).events ∧
    (restore ⟨["b.zip"], [], [], none, none, none, some "default-cfg"⟩
      ⟨some "b.zip", some "CONFIRM_RESTORE", false⟩ "T"
      (fun _ => [⟨"config.yaml", false, "k: v"⟩])
      ⟨false, fun _ => false, false, fun _ => true⟩).state.dataConfig
        = some "k: v" ∧
    (restore ⟨["b.zip"], [], [], none, none, none, some "default-cfg"⟩
      ⟨some "b.zip", some "CONFIRM_RESTORE", false⟩ "T"
      (fun _ => [⟨"config.yaml", false, "k: v"⟩])
      ⟨false, fun _ => false, false, fun _ => true⟩).state.configDirConfig
        = some "k: v" ∧
    (restore ⟨["b.zip"], [], [], none, none, none, some "default-cfg"⟩
      ⟨some "b.zip", some "CONFIRM_RESTORE", false⟩ "T"
      (fun _ => [⟨"config.yaml", false, "k: v"⟩])
      ⟨false, fun _ => false, false, fun _ => true⟩).state.cwdConfig
        = some "default-cfg" := by
  decide

/-- C6 (amended): a `config.yaml` archive entry failing validation is
skipped (state unchanged, the current configuration is preserved); a valid
one is written to the primary location and mirrored to the Data Root copy
and the config-directory copy.  After a successful restore in which a
configuration write happened, the three locations hold the same valid
content only when no bundled default configuration file exists; when the
default exists, the broken post-restore guard (its `require('yaml')` always
throws, so it judges any configuration invalid) copies the default over the
primary location, which then holds the default's content while the two
mirror locations hold the archive entry's (valid) content. -/
theorem restore_config_entry_validation (orc : RestoreOracles)
    (st st2 : FsState) (e : ArchiveEntry) (body : RestoreBody) (ts : String)
    (archOf : String → List ArchiveEntry)
    (hp : e.path = "config.yaml") (hd : e.isDirectory = false) :
    (isValidConfig orc.parseOk e.content = false →
      extractEntry orc.parseOk st e = (st, [])) ∧
    (isValidConfig orc.parseOk e.content = true →
      (extractEntry orc.parseOk st e).1.cwdConfig = some e.content ∧
      (extractEntry orc.parseOk st e).1.dataConfig = some e.content ∧
      (extractEntry orc.parseOk st e).1.configDirConfig = some e.content) ∧
    ((restore st2 body ts archOf orc).response.success = true →
      REvent.writeCwdConfig ∈ (restore st2 body ts archOf orc).events →
      (st2.defaultConfig = none →
        configMirrored orc.parseOk (restore st2 body ts archOf orc).state) ∧
      (∀ dc, st2.defaultConfig = some dc →
        (restore st2 body ts archOf orc).state.cwdConfig = some dc ∧
        ∃ c, (restore st2 body ts archOf orc).state.dataConfig = some c ∧
          (restore st2 body ts archOf orc).state.configDirConfig = some c ∧
          isValidConfig orc.parseOk c = true)) := by
  have hns : strStartsWith "config.yaml" BACKUPS_DIR = false := by decide
  refine ⟨?_, ?_, ?_⟩
  · intro hinv
    simp [extractEntry, hp, hd, hns, hinv]
  · intro hval
    simp [extractEntry, hp, hd, hns, hval]
  · intro hs hmem
    obtain ⟨fname, hb, hsf, hr⟩ := restore_success_shape st2 body ts archOf orc
      hs
    rw [hr] at hs hmem ⊢
    obtain ⟨ho, hr2⟩ := restoreAfterSnapshot_success_shape _ _ _ _ _ hs
    rw [hr2] at hmem ⊢
    have hP : configMirrored orc.parseOk
        (extractAll orc.parseOk (archOf fname)
          (clearStage orc.rmFails body.clearData
            { st2 with backups := st2.backups ++ [preRestoreName ts] }).1).1 := by
      rcases List.mem_cons.mp hmem with h | h
      · cases h
      · rcases List.mem_append.mp h with h | h
        · rcases List.mem_append.mp h with h | h
          · obtain ⟨n, hn⟩ := clearStage_events _ _ _ _ h
            cases hn
          · exact (extractAll_mirror orc.parseOk (archOf fname) _).2 h
        · have hc := ensureConfig_events _ _ h
          cases hc
    have hdef : (extractAll orc.parseOk (archOf fname)
        (clearStage orc.rmFails body.clearData
          { st2 with backups :=
              st2.backups ++ [preRestoreName ts] }).1).1.defaultConfig
          = st2.defaultConfig := by
      rw [(extractAll_preserved _ _ _).2.1, (clearStage_preserved _ _ _).1]
    obtain ⟨c, hc1, hc2, hc3, hcv⟩ := hP
    constructor
    · intro hnone
      rw [ensureConfig_none _ (hdef.trans hnone)]
      exact ⟨c, hc1, hc2, hc3, hcv⟩
    · intro dc hdc
      rw [ensureConfig_some _ dc (hdef.trans hdc)]
      exact ⟨rfl, c, hc2, hc3, hcv⟩

/-- C6 witness: an empty config entry is skipped; a valid one lands in the
primary location; a concrete successful restore with a config write and no
default file leaves all three locations mirrored, while the same restore
with a default file present ends with the default in the primary
location. -/
theorem restore_config_entry_validation_witness :
    extractEntry (fun _ => false) ⟨[], [], [], none, none, none, none⟩
        ⟨"config.yaml", false, ""⟩
      = (⟨[], [], [], none, none, none, none⟩, []) ∧
    (extractEntry (fun _ => true) ⟨[], [], [], none, none, none, none⟩
        ⟨"config.yaml", false, "k: v"⟩).1.cwdConfig = some "k: v" ∧
    configMirrored (fun _ => true)
      (restore ⟨["b.zip"], [], [], none, none, none, none⟩
        ⟨some "b.zip", some "CONFIRM_RESTORE", false⟩ "T"
        (fun _ => [⟨"config.yaml", false, "k: v"⟩])
        ⟨false, fun _ => false, false, fun _ => true⟩).state ∧
    (restore ⟨["b.zip"], [], [], none, none, none, some "default-cfg"⟩
        ⟨some "b.zip", some "CONFIRM_RESTORE", false⟩ "T"
        (fun _ => [⟨"config.yaml", false, "k: v"⟩])
        ⟨false, fun _ => false, false, fun _ => true⟩).state.cwdConfig
      = some "default-cfg" :=
  ⟨(restore_config_entry_validation
      ⟨false, fun _ => false, false, fun _ => false⟩
      ⟨[], [], [], none, none, none, none⟩
      ⟨[], [], [], none, none, none, none⟩
      ⟨"config.yaml", false, ""⟩ ⟨none, none, false⟩ "T" (fun _ => [])
      rfl rfl).1 (by decide),
   ((restore_config_entry_validation
      ⟨false, fun _ => false, false, fun _ => true⟩
      ⟨[], [], [], none, none, none, none⟩
      ⟨[], [], [], none, none, none, none⟩
      ⟨"config.yaml", false, "k: v"⟩ ⟨none, none, false⟩ "T" (fun _ => [])
      rfl rfl).2.1 (by decide)).1,
   ((restore_config_entry_validation
      ⟨false, fun _ => false, false, fun _ => true⟩
      ⟨[], [], [], none, none, none, none⟩
      ⟨["b.zip"], [], [], none, none, none, none⟩
      ⟨"config.yaml", false, "k: v"⟩
      ⟨some "b.zip", some "CONFIRM_RESTORE", false⟩ "T"
      (fun _ => [⟨"config.yaml", false, "k: v"⟩])
      rfl rfl).2.2 (by decide) (by decide)).1 rfl,
   (((restore_config_entry_validation
      ⟨false, fun _ => false, false, fun _ => true⟩
      ⟨[], [], [], none, none, none, none⟩
      ⟨["b.zip"], [], [], none, none, none, some "default-cfg"⟩
      ⟨"config.yaml", false, "k: v"⟩
      ⟨some "b.zip", some "CONFIRM_RESTORE", false⟩ "T"
      (fun _ => [⟨"config.yaml", false, "k: v"⟩])
      rfl rfl).2.2 (by decide) (by decide)).2 "default-cfg" rfl).1⟩

/-- C8 counterexample: when archive creation fails, the partial file is NOT
removed — the handler's catch block only answers 500 — and a subsequent
list shows it, refuting the removal clause of the claim. -/
theorem create_failure_counterexample :
    (createBackup ⟨[], [], [], none, none, none, none⟩ "T" 0 true).1.status
      = 500 ∧
    listZips (createBackup ⟨[], [], [], none, none, none, none⟩ "T" 0
      true).2.backups = ["site-backup-T.zip"] := by
  decide

/-- C8 (amended): when archive creation fails the operation aborts with a
500 error, but the partially written archive file is left in the backup
store and a subsequent list DOES show it. -/
theorem create_failure_keeps_partial (st : FsState) (ts : String) (n : Nat) :
    (createBackup st ts n true).1.status = 500 ∧
    (createBackup st ts n true).1.success = false ∧
    ("site-backup-" ++ ts ++ ".zip") ∈
      listZips (createBackup st ts n true).2.backups := by
  refine ⟨rfl, rfl, ?_⟩
  refine List.mem_filter.mpr ⟨?_, ?_⟩
  · show _ ∈ st.backups ++ ["site-backup-" ++ ts ++ ".zip"]
    exact List.mem_append_right _ (List.mem_singleton_self _)
  · exact strEndsWith_append _ _

end SiteBackup
